import Mathlib

/-!
Verification of the lifecycle orchestrator in `voxelbotutils/runner.py`.

The Python module is shallowly embedded: pure computations become Lean
functions, and the effectful startup/shutdown sequence is embedded as an
explicit trace of events (log lines, collaborator invocations) paired with
the exception, if any, that propagates to the caller.  Python `None` is
`Option.none`, Python exceptions are an explicit error component of the
result, and `exit(1)` is a distinguished outcome constructor.
-/

/-- Python truthiness of an optional integer (`None` and `0` are falsy),
as used by `args.min or args.max` in `validate_sharding_information`. -/
def optTruthy (o : Option Int) : Bool :=
  match o with
  | none => false
  | some n => n != 0

/-- Python `list(range(lo, hi))` on ints: the ascending integers from
`lo` (inclusive) to `hi` (exclusive); empty when `hi ≤ lo`. -/
def rangeList (lo hi : Int) : List Int :=
  (List.range (hi - lo).toNat).map (fun i => lo + i)

/-- The three shard-related fields of the parsed `argparse.Namespace`:
`--shardcount`, `--min`, `--max`, each defaulting to `None`. -/
structure ShardArgs where
  shardcount : Option Int
  min : Option Int
  max : Option Int
deriving DecidableEq, Repr

/-- Possible outcomes of `validate_sharding_information`:
a normal return of the shard-id list (together with the namespace as
mutated by the call), a `logger.critical` followed by `exit(code)`,
or an uncaught `TypeError` raised while evaluating
`list(range(args.min, args.max + 1))` on a `None` operand. -/
inductive ShardOutcome
| ok (shard_ids : List Int) (finalArgs : ShardArgs)
| exited (code : Nat) (criticalMsg : String)
| typeError (msg : String)
deriving DecidableEq, Repr

/-- Embedding of `validate_sharding_information` (runner.py lines 101-123).
Statements are translated in source order: the defaulting of an absent
shardcount, then the `shard_ids` computation (which in Python evaluates
`args.max + 1` first and then `range(args.min, ...)`, raising `TypeError`
if the corresponding operand is `None`), then the two critical/exit
checks, then the return. -/
def validate_sharding_information (args : ShardArgs) : ShardOutcome :=
  -- if args.shardcount is None: args.shardcount = 1; args.min = 0; args.max = 0
  let a : ShardArgs :=
    if args.shardcount = none then ⟨some 1, some 0, some 0⟩ else args
  -- shard_ids = list(range(args.min, args.max + 1))
  match a.max with
  | none => ShardOutcome.typeError
      "unsupported operand type(s) for +: 'NoneType' and 'int'"
  | some mx =>
    match a.min with
    | none => ShardOutcome.typeError
        "'NoneType' object cannot be interpreted as an integer"
    | some mn =>
      let shard_ids := rangeList mn (mx + 1)
      -- if args.shardcount is None and (args.min or args.max)
      if a.shardcount = none ∧ (optTruthy a.min ∨ optTruthy a.max) then
        ShardOutcome.exited 1 "You set a min/max shard handler but no shard count"
      -- if args.shardcount is not None and not (args.min is not None and args.max is not None)
      else if a.shardcount ≠ none ∧ ¬ (a.min ≠ none ∧ a.max ≠ none) then
        ShardOutcome.exited 1 "You set a shardcount but not min/max shards"
      else
        ShardOutcome.ok shard_ids a

/-- Recognizer for the first critical/exit branch of
`validate_sharding_information` ("min/max but no shard count"). -/
def isMinMaxNoCountExit (o : ShardOutcome) : Bool :=
  match o with
  | ShardOutcome.exited 1 msg =>
      msg = "You set a min/max shard handler but no shard count"
  | _ => false

example : validate_sharding_information ⟨none, none, none⟩ =
    ShardOutcome.ok [0] ⟨some 1, some 0, some 0⟩ := by decide

example : validate_sharding_information ⟨some 2, some 0, some 1⟩ =
    ShardOutcome.ok [0, 1] ⟨some 2, some 0, some 1⟩ := by decide

example : validate_sharding_information ⟨some 4, some 0, none⟩ =
    ShardOutcome.typeError "unsupported operand type(s) for +: 'NoneType' and 'int'" := by
  decide

/-! ## Log level configuration (`set_log_level`, `set_default_log_levels`) -/

/-- The four logging channels touched by `set_default_log_levels`:
the orchestrator/bot logger (`vflbotutils`), `bot.database.logger`,
`bot.redis.logger`, and the `discord` logger. -/
inductive Channel
| bot
| database
| redis
| discord
deriving DecidableEq, Repr

/-- Python `loglevel.upper()`: per-character uppercasing (the level names
fed to it are ASCII, where Python's `str.upper` acts characterwise). -/
def pyUpper (s : String) : String :=
  String.mk (s.data.map Char.toUpper)

/-- Whether `needle` occurs as a contiguous run inside `hay`; used to
state that an error message does or does not name a given string. -/
def containsSub : List Char → List Char → Bool
| [], needle => needle.isEmpty
| c :: t, needle => List.isPrefixOf needle (c :: t) || containsSub t needle

example : containsSub "The log level BANANA".data "BANANA".data = true := by decide
example : containsSub "The log level BANANA".data "banana".data = false := by decide

/-- A module attribute of Python's `logging` module that
`getattr(logging, loglevel.upper(), None)` can return: one of the integer
severity constants, the format string `logging.BASIC_FORMAT`, or the
style dictionary `logging._STYLES` (every other module attribute contains
a lowercase letter and is unreachable through `.upper()`). -/
inductive LogAttr
| levelInt (n : Nat)
| basicFormat
| stylesDict
deriving DecidableEq, Repr

/-- An exception raised inside `set_log_level`: the `ValueError` raised
explicitly by the runner or by `Logger.setLevel`, or the `TypeError`
raised by `Logger.setLevel` on a value that is neither an int nor a str
(its message interpolates the repr of that value, which the embedding
does not reproduce). -/
inductive PyError
| valueError (msg : String)
| typeError
deriving DecidableEq, Repr

/-- `getattr(logging, s, None)` for the names reachable as
`loglevel.upper()`: the eight severity constants (`CRITICAL`/`FATAL` 50,
`ERROR` 40, `WARNING`/`WARN` 30, `INFO` 20, `DEBUG` 10, `NOTSET` 0), the
string attribute `BASIC_FORMAT`, and the dict attribute `_STYLES`; any
other all-uppercase name is absent and yields `none`. -/
def loggingAttr (s : String) : Option LogAttr :=
  if s = "CRITICAL" then some (LogAttr.levelInt 50)
  else if s = "FATAL" then some (LogAttr.levelInt 50)
  else if s = "ERROR" then some (LogAttr.levelInt 40)
  else if s = "WARNING" then some (LogAttr.levelInt 30)
  else if s = "WARN" then some (LogAttr.levelInt 30)
  else if s = "INFO" then some (LogAttr.levelInt 20)
  else if s = "DEBUG" then some (LogAttr.levelInt 10)
  else if s = "NOTSET" then some (LogAttr.levelInt 0)
  else if s = "BASIC_FORMAT" then some LogAttr.basicFormat
  else if s = "_STYLES" then some LogAttr.stylesDict
  else none

/-- The state mutated by the log-level configurator: each channel's
current severity level. -/
def LogState : Type := Channel → Nat

/-- Embedding of `set_log_level` (runner.py lines 22-44).  The result is
the new channel-level state together with the exception raised, if any.
When the `getattr` lookup fails the runner raises its own `ValueError`
before `logger_to_change.setLevel(level)`, so the state is returned
unchanged.  When the lookup succeeds with a non-integer attribute
(`BASIC_FORMAT`, a str; `_STYLES`, a dict), `Logger.setLevel` validates
the value through `logging._checkLevel` and raises before assigning
`self.level`: `ValueError("Unknown level: %r" % level)` for a str not
naming a level, `TypeError` for anything else — again leaving the state
unchanged. -/
def set_log_level (st : LogState) (ch : Channel) (loglevel : Option String) :
    LogState × Option PyError :=
  match loglevel with
  | none => (st, none)
  | some s =>
    match loggingAttr (pyUpper s) with
    | none =>
        (st, some (PyError.valueError
          ("The log level " ++ pyUpper s ++ " wasn't found in the logging module")))
    | some (LogAttr.levelInt level) =>
        ((fun c => if c = ch then level else st c), none)
    | some LogAttr.basicFormat =>
        (st, some (PyError.valueError
          "Unknown level: '%(levelname)s:%(name)s:%(message)s'"))
    | some LogAttr.stylesDict =>
        (st, some PyError.typeError)

/-- Sequencing of `set_log_level` calls inside `set_default_log_levels`:
once a call has raised, the exception propagates and later calls do not
run. -/
def logStep (acc : LogState × Option PyError) (ch : Channel) (loglevel : Option String) :
    LogState × Option PyError :=
  match acc.2 with
  | some _ => acc
  | none => set_log_level acc.1 ch loglevel

/-- Embedding of `set_default_log_levels` (runner.py lines 126-148):
a global-default pass over the four channels with `args.loglevel`,
followed by a per-channel override pass with `args.loglevel_bot`,
`args.loglevel_database`, `args.loglevel_redis`, `args.loglevel_discord`.
(The `logging.basicConfig` stream/format side effect and the
`bot.logger = logger` assignment do not touch channel levels and are not
modelled.) -/
def set_default_log_levels (st : LogState) (loglevel : String)
    (loglevel_bot loglevel_database loglevel_redis loglevel_discord : Option String) :
    LogState × Option PyError :=
  let a1 := set_log_level st Channel.bot (some loglevel)
  let a2 := logStep a1 Channel.database (some loglevel)
  let a3 := logStep a2 Channel.redis (some loglevel)
  let a4 := logStep a3 Channel.discord (some loglevel)
  let a5 := logStep a4 Channel.bot loglevel_bot
  let a6 := logStep a5 Channel.database loglevel_database
  let a7 := logStep a6 Channel.redis loglevel_redis
  logStep a7 Channel.discord loglevel_discord

/-- Modelled from the spec's layering contract: the final level of a
channel is the override's severity when an override naming a severity
level is provided, and the global severity otherwise. -/
def specResolvedLevel (g : Nat) (o : Option String) : Option Nat :=
  match o with
  | none => some g
  | some s =>
    match loggingAttr (pyUpper s) with
    | some (LogAttr.levelInt n) => some n
    | _ => none

example :
    (set_default_log_levels (fun _ => 0) "INFO" (some "debug") none (some "WARNING") none).1
      Channel.redis = 30 := by decide

/-! ## Event-trace embedding of the effectful startup/shutdown code

Each effectful operation of `create_initial_database`,
`start_database_pool`, `start_redis_pool` and `run_bot` is recorded as an
`Event`; a function's behaviour is the list of events it performs, in
order, paired with the exception (if any) that propagates to its caller. -/

/-- Observable operations performed by the orchestrator: log lines and
invocations of the collaborators (database/redis pool classes and the
bot client). -/
inductive Event
| log (msg : String)
| dbCreatePool
| dbAcquireConnection
| execStatement (stmt : String)
| dbReleaseConnection
| redisCreatePool
| loadAllExtensions
| botStart
| botLogout
| dbPoolClose
| redisPoolClose
| loopClose
deriving DecidableEq, Repr

/-- Python exception classes that appear in the runner: `raise Exception`,
`raise KeyError`, `raise ConnectionRefusedError`. -/
inductive ExcKind
| exception
| keyError
| connectionRefused
deriving DecidableEq, Repr

/-- An exception as raised by the runner: its class and its message. -/
structure Exc where
  kind : ExcKind
  msg : String
deriving DecidableEq, Repr

/-- Count of occurrences of one event in a trace. -/
def countEvent (e : Event) (l : List Event) : Nat :=
  l.countP (fun x => x = e)

/-- Whitespace characters recognized by Python's `str.strip()`. -/
def isPySpace (c : Char) : Bool :=
  c = ' ' || c = '\t' || c = '\n' || c = '\r' || c = '\x0b' || c = '\x0c'

/-- Python `s.strip()`: drop leading and trailing whitespace. -/
def pyStrip (s : String) : String :=
  String.mk (((s.data.dropWhile isPySpace).reverse.dropWhile isPySpace).reverse)

/-- Helper for `pySplitSemi`: split a character list on the chars seen so
far (in reverse) and the remaining input. -/
def splitSemiAux : List Char → List Char → List String
| [], acc => [String.mk acc.reverse]
| c :: rest, acc =>
    if c = ';' then String.mk acc.reverse :: splitSemiAux rest []
    else splitSemiAux rest (c :: acc)

/-- Python `data.split(';')`: fragments between semicolons, keeping empty
fragments, with `["" ]`-style behaviour on the empty string (the empty
string splits to one empty fragment). -/
def pySplitSemi (s : String) : List String :=
  splitSemiAux s.data []

example : pySplitSemi "" = [""] := rfl
example : pySplitSemi "a;b" = ["a", "b"] := rfl
example : pySplitSemi ";" = ["", ""] := rfl
example : pyStrip "  a b \n" = "a b" := rfl

/-- The loop body of `create_initial_database`: for each fragment `i` of
the split, `if i and i.strip(): await db(i.strip())` — an `execStatement`
event for the stripped fragment when `i` is nonempty and strips to a
nonempty string. -/
def execBatch : List String → List Event
| [] => []
| i :: rest =>
    (if !i.isEmpty && !(pyStrip i).isEmpty then [Event.execStatement (pyStrip i)] else [])
      ++ execBatch rest

/-- Embedding of `create_initial_database` (runner.py lines 151-166).
The artifact parameter is the content of `./config/database.pgsql`:
`none` when the `open`/`read` raises (file absent or unreadable), in which
case the function returns `False` at once; otherwise the text is split on
semicolons and the nonblank fragments are executed, stripped, inside one
`async with bot.database()` scope (acquire, batch, release), returning
`True`.  The result pairs the event trace with the returned boolean. -/
def create_initial_database (artifact : Option String) : List Event × Bool :=
  match artifact with
  | none => ([], false)
  | some data =>
      (Event.dbAcquireConnection :: (execBatch (pySplitSemi data) ++ [Event.dbReleaseConnection]),
       true)

example : create_initial_database (some "CREATE TABLE a(x int); CREATE TABLE b(y int);") =
    ([Event.dbAcquireConnection,
      Event.execStatement "CREATE TABLE a(x int)",
      Event.execStatement "CREATE TABLE b(y int)",
      Event.dbReleaseConnection], true) := by decide

/-- How an attempted `create_pool` call on a collaborator ends: success,
or one of the exception classes the runner catches. -/
inductive CreateFailure
| keyError
| connectionRefused
| otherError
deriving DecidableEq, Repr

/-- Embedding of `start_database_pool` (runner.py lines 169-189),
parameterized by `bot.config["database"]["enabled"]`, by how the
`DatabaseConnection.create_pool` call ends when it is made, and by the
schema artifact consumed by `create_initial_database`.  Returns the event
trace and the exception propagated to the caller, if any. -/
def start_database_pool (enabled : Bool) (create : Option CreateFailure)
    (artifact : Option String) : List Event × Option Exc :=
  if enabled then
    match create with
    | some CreateFailure.keyError =>
        ([Event.log "Creating database pool", Event.dbCreatePool],
         some ⟨ExcKind.exception,
           "KeyError creating database pool - is there a 'database' object in the config?"⟩)
    | some CreateFailure.connectionRefused =>
        ([Event.log "Creating database pool", Event.dbCreatePool],
         some ⟨ExcKind.exception,
           "ConnectionRefusedError creating database pool - did you set the right information in the config, and is the database running?"⟩)
    | some CreateFailure.otherError =>
        ([Event.log "Creating database pool", Event.dbCreatePool],
         some ⟨ExcKind.exception, "Error creating database pool"⟩)
    | none =>
        ([Event.log "Creating database pool", Event.dbCreatePool,
          Event.log "Created database pool successfully",
          Event.log "Creating initial database tables"]
           ++ (create_initial_database artifact).1,
         none)
  else
    ([Event.log "Database connection has been disabled"], none)

/-- Embedding of `start_redis_pool` (runner.py lines 192-210),
parameterized by `bot.config["redis"]["enabled"]` and by how the
`RedisConnection.create_pool` call ends when it is made.  Unlike the
database starter, the re-raised exceptions keep the classes `KeyError`
and `ConnectionRefusedError`. -/
def start_redis_pool (enabled : Bool) (create : Option CreateFailure) :
    List Event × Option Exc :=
  if enabled then
    match create with
    | some CreateFailure.keyError =>
        ([Event.log "Creating redis pool", Event.redisCreatePool],
         some ⟨ExcKind.keyError,
           "KeyError creating redis pool - is there a 'redis' object in the config?"⟩)
    | some CreateFailure.connectionRefused =>
        ([Event.log "Creating redis pool", Event.redisCreatePool],
         some ⟨ExcKind.connectionRefused,
           "ConnectionRefusedError creating redis pool - did you set the right information in the config, and is the database running?"⟩)
    | some CreateFailure.otherError =>
        ([Event.log "Creating redis pool", Event.redisCreatePool],
         some ⟨ExcKind.exception, "Error creating redis pool"⟩)
    | none =>
        ([Event.log "Creating redis pool", Event.redisCreatePool,
          Event.log "Created redis pool successfully"], none)
  else
    ([Event.log "Redis connection has been disabled"], none)

/-- How `loop.run_until_complete(bot.start())` ends: normal return,
`KeyboardInterrupt` (the only class the `try` catches), or some other
exception that propagates out of `run_bot`. -/
inductive RunEnd
| normal
| keyboardInterrupt
| fatal (e : Exc)
deriving DecidableEq, Repr

/-- The environment of one `run_bot` execution: the two `enabled` config
flags, how each collaborator `create_pool` call would end, the schema
artifact, and how the client's blocking run ends. -/
structure RunParams where
  dbEnabled : Bool
  redisEnabled : Bool
  dbCreate : Option CreateFailure
  redisCreate : Option CreateFailure
  artifact : Option String
  runEnd : RunEnd

/-- The teardown block of `run_bot` (runner.py lines 249-258): close the
database pool if the database is enabled, then the redis pool if redis is
enabled, then close the asyncio loop. -/
def teardownEvents (dbEnabled redisEnabled : Bool) : List Event :=
  (if dbEnabled then [Event.log "Closing database pool", Event.dbPoolClose] else [])
    ++ (if redisEnabled then [Event.log "Closing redis pool", Event.redisPoolClose] else [])
    ++ [Event.log "Closing asyncio loop", Event.loopClose]

/-- Embedding of `run_bot` (runner.py lines 213-258): run the database
starter to completion, then the redis starter, then load extensions, then
run the client; a `KeyboardInterrupt` triggers `bot.logout()`; then the
teardown block.  An exception from either starter, or a non-interrupt
exception from `bot.start()`, propagates immediately and skips everything
after it.  (The windows-only event-loop selection touches no modelled
state.) -/
def run_bot (p : RunParams) : List Event × Option Exc :=
  match start_database_pool p.dbEnabled p.dbCreate p.artifact with
  | (ev1, some e) => (ev1, some e)
  | (ev1, none) =>
    match start_redis_pool p.redisEnabled p.redisCreate with
    | (ev2, some e) => (ev1 ++ ev2, some e)
    | (ev2, none) =>
      let pre := ev1 ++ ev2
        ++ [Event.log "Loading extensions... ", Event.loadAllExtensions,
            Event.log "Running bot", Event.botStart]
      match p.runEnd with
      | RunEnd.fatal e => (pre, some e)
      | RunEnd.normal =>
          (pre ++ teardownEvents p.dbEnabled p.redisEnabled, none)
      | RunEnd.keyboardInterrupt =>
          (pre ++ [Event.log "Logging out bot", Event.botLogout]
               ++ teardownEvents p.dbEnabled p.redisEnabled, none)

/-- The startup phase an event belongs to, used to state the ordering
contract: database-pool start (with schema bootstrap) is phase 0, redis
pool start is phase 1, extension loading is phase 2, the invocation of
the client's blocking run is phase 3; log lines and teardown operations
carry no phase. -/
def phaseRank : Event → Option Nat
| Event.log _ => none
| Event.dbCreatePool => some 0
| Event.dbAcquireConnection => some 0
| Event.execStatement _ => some 0
| Event.dbReleaseConnection => some 0
| Event.redisCreatePool => some 1
| Event.loadAllExtensions => some 2
| Event.botStart => some 3
| Event.botLogout => none
| Event.dbPoolClose => none
| Event.redisPoolClose => none
| Event.loopClose => none

/-! ## Claim theorems -/

/-- C6: for every argument namespace with `shardcount` absent,
`validate_sharding_information` returns normally with the single-shard
default: the namespace is mutated to `{shardcount: 1, min: 0, max: 0}`
and the returned shard-id list is `[0]`, regardless of any stray min/max
values supplied. -/
theorem C6_single_shard_default (mn mx : Option Int) :
    validate_sharding_information ⟨none, mn, mx⟩ =
      ShardOutcome.ok [0] ⟨some 1, some 0, some 0⟩ := rfl

/-- C10: the first critical/exit branch of
`validate_sharding_information` ("You set a min/max shard handler but no
shard count") is unreachable: no input namespace produces that outcome,
because an absent shardcount has already been defaulted to 1 by the time
the check runs. -/
theorem C10_min_max_no_count_branch_unreachable (args : ShardArgs) :
    isMinMaxNoCountExit (validate_sharding_information args) = false := by
  obtain ⟨sc, mn, mx⟩ := args
  cases sc <;> cases mn <;> cases mx <;>
    simp [validate_sharding_information, isMinMaxNoCountExit, optTruthy]

/-- C1 (code bug evidence): with `shardcount` present and exactly one of
min/max absent, `validate_sharding_information` raises an uncaught
`TypeError` while computing `list(range(args.min, args.max + 1))` on line
116, before the critical-log/exit(1) check of lines 120-122 can run; it
neither logs the critical message nor exits with status 1. -/
theorem C1_typeerror_preempts_exit :
    validate_sharding_information ⟨some 4, some 0, none⟩ =
      ShardOutcome.typeError "unsupported operand type(s) for +: 'NoneType' and 'int'"
    ∧ validate_sharding_information ⟨some 4, none, some 3⟩ =
      ShardOutcome.typeError "'NoneType' object cannot be interpreted as an integer" := by
  exact ⟨rfl, rfl⟩

/-- The loop of `create_initial_database` executes exactly the fragments
that are nonempty and strip to something nonempty, stripped, in document
order. -/
theorem execBatch_eq_filter_map (l : List String) :
    execBatch l =
      ((l.filter (fun i => !i.isEmpty && !(pyStrip i).isEmpty)).map
        (fun i => Event.execStatement (pyStrip i))) := by
  induction l with
  | nil => rfl
  | cons i rest ih =>
      cases h : (!i.isEmpty && !(pyStrip i).isEmpty) <;>
        simp [execBatch, h, ih, List.filter_cons]

/-- Every event of `execBatch` is a statement execution. -/
theorem mem_execBatch {x : Event} {l : List String} (h : x ∈ execBatch l) :
    ∃ s, x = Event.execStatement s := by
  rw [execBatch_eq_filter_map] at h
  obtain ⟨i, -, hi⟩ := List.mem_map.mp h
  exact ⟨pyStrip i, hi.symm⟩

/-- A character list of whitespace survives no `dropWhile isPySpace`. -/
theorem pyStrip_of_all_space {s : String} (h : ∀ c ∈ s.data, isPySpace c = true) :
    pyStrip s = "" := by
  have h1 : s.data.dropWhile isPySpace = [] := by
    rw [List.dropWhile_eq_nil_iff]
    exact fun c hc => h c hc
  simp [pyStrip, h1]

/-- Splitting a whitespace-only character list yields whitespace-only
fragments. -/
theorem splitSemiAux_all_space : ∀ (l acc : List Char),
    (∀ c ∈ l, isPySpace c = true) → (∀ c ∈ acc, isPySpace c = true) →
    ∀ s ∈ splitSemiAux l acc, ∀ c ∈ s.data, isPySpace c = true := by
  intro l
  induction l with
  | nil =>
      intro acc _ hacc s hs c hc
      simp only [splitSemiAux, List.mem_singleton] at hs
      subst hs
      simp only [List.mem_reverse] at hc
      exact hacc c (by simpa using hc)
  | cons a rest ih =>
      intro acc hl hacc s hs
      have ha : isPySpace a = true := hl a (List.mem_cons_self a rest)
      have hne : ¬ (a = ';') := by
        intro hEq
        rw [hEq] at ha
        simp [isPySpace] at ha
      simp only [splitSemiAux, if_neg hne] at hs
      exact ih (a :: acc) (fun c hc => hl c (List.mem_cons_of_mem a hc))
        (by
          intro c hc
          rcases List.mem_cons.mp hc with h1 | h1
          · rw [h1]; exact ha
          · exact hacc c h1) s hs

/-- C2 counterexample: an empty artifact does not report the "skipped"
result.  The absent-artifact path returns `False` (the spec's "skipped"
result), but an empty artifact still acquires the connection scope,
executes zero statements, and returns `True` — the same success result as
normal execution. -/
theorem C2_empty_artifact_not_skipped :
    create_initial_database (some "") =
      ([Event.dbAcquireConnection, Event.dbReleaseConnection], true)
    ∧ create_initial_database none = ([], false) := by
  exact ⟨rfl, rfl⟩

/-- C2 (amended): `create_initial_database` returns the skipped result
`False` with no effect when the artifact is absent or unreadable; for a
present artifact it splits the text on semicolons, discards fragments
that are empty or strip to whitespace, executes the remaining fragments
stripped, sequentially in document order, within exactly one scoped
connection acquisition, and returns the success result `True` (so an
empty or whitespace-only artifact executes zero statements and returns
`True`, not an error — but not the skipped result `False`). -/
theorem C2_schema_bootstrap (data : String)
    (hws : ∀ c ∈ data.data, isPySpace c = true) :
    create_initial_database none = ([], false)
    ∧ (∀ text, create_initial_database (some text) =
        (Event.dbAcquireConnection ::
          (((pySplitSemi text).filter (fun i => !i.isEmpty && !(pyStrip i).isEmpty)).map
              (fun i => Event.execStatement (pyStrip i))
            ++ [Event.dbReleaseConnection]), true))
    ∧ (∀ text, countEvent Event.dbAcquireConnection (create_initial_database (some text)).1 = 1)
    ∧ create_initial_database (some data) =
        ([Event.dbAcquireConnection, Event.dbReleaseConnection], true) := by
  refine ⟨rfl, ?_, ?_, ?_⟩
  · intro text
    simp [create_initial_database, execBatch_eq_filter_map]
  · intro text
    have hmem : ∀ x ∈ execBatch (pySplitSemi text), ¬ (x = Event.dbAcquireConnection) := by
      intro x hx hEq
      obtain ⟨s, hs⟩ := mem_execBatch hx
      rw [hEq] at hs
      cases hs
    simp only [create_initial_database, countEvent, List.countP_cons, List.countP_append]
    rw [List.countP_eq_zero.mpr (by intro a ha; simpa using hmem a ha)]
    simp [countEvent]
  · have hfrag := splitSemiAux_all_space data.data [] hws (by intro c hc; cases hc)
    have hempty : execBatch (pySplitSemi data) = [] := by
      rw [execBatch_eq_filter_map]
      have : (pySplitSemi data).filter (fun i => !i.isEmpty && !(pyStrip i).isEmpty) = [] := by
        rw [List.filter_eq_nil_iff]
        intro i hi
        have hps := pyStrip_of_all_space (hfrag i hi)
        have h2 : ("" : String).isEmpty = true := rfl
        simp [hps, h2]
      rw [this]
      rfl
    simp [create_initial_database, hempty]

/-- C2 witness: a whitespace-only artifact acquires the connection scope,
executes zero statements, and returns `True`. -/
theorem C2_schema_bootstrap_witness :
    create_initial_database (some " \n ") =
      ([Event.dbAcquireConnection, Event.dbReleaseConnection], true) :=
  (C2_schema_bootstrap " \n " (by decide)).2.2.2

/-- C3: with the resource enabled, a `KeyError` from pool creation turns
into a configuration error naming the missing settings object, a
`ConnectionRefusedError` turns into a connectivity error telling the
operator to check the config and whether the service is running, and any
other failure turns into a generic resource-start error; the three
messages are pairwise distinct (so the kinds are distinguishable), each
exception propagates to the caller, and the `create_pool` collaborator is
invoked exactly once (never retried). -/
theorem C3_pool_start_failures (a : Option String) :
    start_database_pool true (some CreateFailure.keyError) a =
      ([Event.log "Creating database pool", Event.dbCreatePool],
       some ⟨ExcKind.exception,
         "KeyError creating database pool - is there a 'database' object in the config?"⟩)
    ∧ start_database_pool true (some CreateFailure.connectionRefused) a =
      ([Event.log "Creating database pool", Event.dbCreatePool],
       some ⟨ExcKind.exception,
         "ConnectionRefusedError creating database pool - did you set the right information in the config, and is the database running?"⟩)
    ∧ start_database_pool true (some CreateFailure.otherError) a =
      ([Event.log "Creating database pool", Event.dbCreatePool],
       some ⟨ExcKind.exception, "Error creating database pool"⟩)
    ∧ start_redis_pool true (some CreateFailure.keyError) =
      ([Event.log "Creating redis pool", Event.redisCreatePool],
       some ⟨ExcKind.keyError,
         "KeyError creating redis pool - is there a 'redis' object in the config?"⟩)
    ∧ start_redis_pool true (some CreateFailure.connectionRefused) =
      ([Event.log "Creating redis pool", Event.redisCreatePool],
       some ⟨ExcKind.connectionRefused,
         "ConnectionRefusedError creating redis pool - did you set the right information in the config, and is the database running?"⟩)
    ∧ start_redis_pool true (some CreateFailure.otherError) =
      ([Event.log "Creating redis pool", Event.redisCreatePool],
       some ⟨ExcKind.exception, "Error creating redis pool"⟩)
    ∧ (∀ f, countEvent Event.dbCreatePool (start_database_pool true (some f) a).1 = 1)
    ∧ (∀ f, countEvent Event.redisCreatePool (start_redis_pool true (some f)).1 = 1) := by
  refine ⟨rfl, rfl, rfl, rfl, rfl, rfl, ?_, ?_⟩ <;> intro f <;> cases f <;> rfl

/-- C9 counterexample: level strings whose uppercase form is a
non-severity attribute of the logging module refute the claim.  With
input "_styles" the lookup finds the `_STYLES` dict and `setLevel`
raises a `TypeError`, not a `ValueError`; with input "basic_format" the
lookup finds `BASIC_FORMAT` and `setLevel` raises
`ValueError("Unknown level: ...")`, whose message contains neither the
offending string nor its uppercase form.  The state is unchanged in both
cases. -/
theorem C9_nonlevel_attribute_counterexample :
    set_log_level (fun _ => 0) Channel.bot (some "_styles") =
      ((fun _ => 0), some PyError.typeError)
    ∧ set_log_level (fun _ => 0) Channel.bot (some "basic_format") =
      ((fun _ => 0), some (PyError.valueError
        "Unknown level: '%(levelname)s:%(name)s:%(message)s'"))
    ∧ containsSub "Unknown level: '%(levelname)s:%(name)s:%(message)s'".data
        "BASIC_FORMAT".data = false
    ∧ containsSub "Unknown level: '%(levelname)s:%(name)s:%(message)s'".data
        "basic_format".data = false :=
  ⟨rfl, rfl, by decide, by decide⟩

/-- C9 (amended): a non-`None` level string whose uppercase form is not
an attribute of the logging module makes `set_log_level` raise a
`ValueError` whose message names the (uppercased) offending level
string, before `setLevel` runs; for the two non-severity uppercase
attributes the lookup can reach, "basic_format" yields the `setLevel`
`ValueError` "Unknown level: ..." (which does not name the offending
string) and "_styles" yields a `TypeError`.  In every failing case the
error is raised before the channel's level is mutated, so the state is
returned unchanged. -/
theorem C9_bad_level_error_before_mutation (st : LogState) (ch : Channel) (s : String)
    (h : loggingAttr (pyUpper s) = none) :
    set_log_level st ch (some s) =
      (st, some (PyError.valueError
        ("The log level " ++ pyUpper s ++ " wasn't found in the logging module")))
    ∧ (∀ st' ch', set_log_level st' ch' (some "basic_format") =
        (st', some (PyError.valueError
          "Unknown level: '%(levelname)s:%(name)s:%(message)s'")))
    ∧ (∀ st' ch', set_log_level st' ch' (some "_styles") =
        (st', some PyError.typeError)) :=
  ⟨by simp [set_log_level, h], fun st' ch' => rfl, fun st' ch' => rfl⟩

/-- C9 witness: the level string "banana" is rejected with the ValueError
message naming BANANA, without touching the state. -/
theorem C9_bad_level_error_witness :
    set_log_level (fun _ => 0) Channel.bot (some "banana") =
      ((fun _ => 0), some (PyError.valueError
        "The log level BANANA wasn't found in the logging module")) :=
  (C9_bad_level_error_before_mutation (fun _ => 0) Channel.bot "banana" rfl).1

/-- A successful spec-side resolution of an override string means the
lookup found exactly an integer severity constant. -/
theorem specResolvedLevel_some_attr {g v : Nat} {s : String}
    (h : specResolvedLevel g (some s) = some v) :
    loggingAttr (pyUpper s) = some (LogAttr.levelInt v) := by
  simp only [specResolvedLevel] at h
  rcases hA : loggingAttr (pyUpper s) with _ | attr
  · rw [hA] at h
    simp at h
  · cases attr with
    | levelInt n =>
        rw [hA] at h
        simp at h
        rw [h]
    | basicFormat =>
        rw [hA] at h
        simp at h
    | stylesDict =>
        rw [hA] at h
        simp at h

/-- C7: after `set_default_log_levels` with a valid global level `G`
(severity `g`) and per-channel overrides that are absent or valid, no
error is raised and every channel ends at its override's severity when
the override is provided and at `g` otherwise; an absent override leaves
the level set by the global pass unchanged. -/
theorem C7_log_level_layering (st : LogState) (G : String) (g : Nat)
    (hG : loggingAttr (pyUpper G) = some (LogAttr.levelInt g))
    (lb ldb lr ld : Option String) (vb vdb vr vd : Nat)
    (hb : specResolvedLevel g lb = some vb)
    (hdb : specResolvedLevel g ldb = some vdb)
    (hr : specResolvedLevel g lr = some vr)
    (hd : specResolvedLevel g ld = some vd) :
    (set_default_log_levels st G lb ldb lr ld).2 = none
    ∧ (set_default_log_levels st G lb ldb lr ld).1 Channel.bot = vb
    ∧ (set_default_log_levels st G lb ldb lr ld).1 Channel.database = vdb
    ∧ (set_default_log_levels st G lb ldb lr ld).1 Channel.redis = vr
    ∧ (set_default_log_levels st G lb ldb lr ld).1 Channel.discord = vd := by
  rcases lb with _ | sb <;> rcases ldb with _ | sdb <;>
    rcases lr with _ | sr <;> rcases ld with _ | sd <;>
    (try replace hb := specResolvedLevel_some_attr hb
     try replace hdb := specResolvedLevel_some_attr hdb
     try replace hr := specResolvedLevel_some_attr hr
     try replace hd := specResolvedLevel_some_attr hd
     try simp only [specResolvedLevel, Option.some.injEq] at hb
     try simp only [specResolvedLevel, Option.some.injEq] at hdb
     try simp only [specResolvedLevel, Option.some.injEq] at hr
     try simp only [specResolvedLevel, Option.some.injEq] at hd
     simp [set_default_log_levels, logStep, set_log_level, hG, hb, hdb, hr, hd]
     try omega)

/-- C7 witness: global INFO with a DEBUG override for the bot channel and
a lowercase warning override for the redis channel. -/
theorem C7_log_level_layering_witness :
    (set_default_log_levels (fun _ => 0) "INFO" (some "debug") none (some "warning") none).2 = none
    ∧ (set_default_log_levels (fun _ => 0) "INFO" (some "debug") none (some "warning") none).1
        Channel.bot = 10
    ∧ (set_default_log_levels (fun _ => 0) "INFO" (some "debug") none (some "warning") none).1
        Channel.database = 20
    ∧ (set_default_log_levels (fun _ => 0) "INFO" (some "debug") none (some "warning") none).1
        Channel.redis = 30
    ∧ (set_default_log_levels (fun _ => 0) "INFO" (some "debug") none (some "warning") none).1
        Channel.discord = 20 :=
  C7_log_level_layering (fun _ => 0) "INFO" 20 rfl
    (some "debug") none (some "warning") none 10 20 30 20 rfl rfl rfl rfl

/-! ## Trace-shape helpers for `run_bot` -/

/-- Every event of `create_initial_database` is a connection acquisition,
a connection release, or a statement execution. -/
theorem mem_create_initial_database {x : Event} {a : Option String}
    (h : x ∈ (create_initial_database a).1) :
    x = Event.dbAcquireConnection ∨ x = Event.dbReleaseConnection ∨
      ∃ s, x = Event.execStatement s := by
  cases a with
  | none => cases h
  | some data =>
      simp only [create_initial_database, List.mem_cons, List.mem_append,
        List.mem_singleton, List.not_mem_nil, or_false] at h
      rcases h with h | h | h
      · exact Or.inl h
      · exact Or.inr (Or.inr (mem_execBatch h))
      · exact Or.inr (Or.inl h)

/-- Every event of `start_database_pool` is a log line, the pool-creation
call, or a schema-bootstrap event. -/
theorem mem_start_database_pool {x : Event} {e : Bool} {c : Option CreateFailure}
    {a : Option String} (h : x ∈ (start_database_pool e c a).1) :
    (∃ s, x = Event.log s) ∨ x = Event.dbCreatePool ∨ x = Event.dbAcquireConnection ∨
      x = Event.dbReleaseConnection ∨ ∃ s, x = Event.execStatement s := by
  cases e with
  | false =>
      simp only [start_database_pool, Bool.false_eq_true, if_false,
        List.mem_singleton] at h
      exact Or.inl ⟨_, h⟩
  | true =>
      cases c with
      | none =>
          simp only [start_database_pool, if_true, List.mem_append] at h
          rcases h with h | h
          · simp only [List.mem_cons, List.not_mem_nil, or_false] at h
            rcases h with h | h | h | h
            · exact Or.inl ⟨_, h⟩
            · exact Or.inr (Or.inl h)
            · exact Or.inl ⟨_, h⟩
            · exact Or.inl ⟨_, h⟩
          · rcases mem_create_initial_database h with h | h | h
            · exact Or.inr (Or.inr (Or.inl h))
            · exact Or.inr (Or.inr (Or.inr (Or.inl h)))
            · exact Or.inr (Or.inr (Or.inr (Or.inr h)))
      | some f =>
          cases f <;>
            (simp only [start_database_pool, if_true, List.mem_cons,
              List.not_mem_nil, or_false] at h
             rcases h with h | h
             · exact Or.inl ⟨_, h⟩
             · exact Or.inr (Or.inl h))

/-- Every event of `start_redis_pool` is a log line or the pool-creation
call. -/
theorem mem_start_redis_pool {x : Event} {e : Bool} {c : Option CreateFailure}
    (h : x ∈ (start_redis_pool e c).1) :
    (∃ s, x = Event.log s) ∨ x = Event.redisCreatePool := by
  cases e with
  | false =>
      simp only [start_redis_pool, Bool.false_eq_true, if_false,
        List.mem_singleton] at h
      exact Or.inl ⟨_, h⟩
  | true =>
      cases c with
      | none =>
          simp only [start_redis_pool, if_true, List.mem_cons,
            List.not_mem_nil, or_false] at h
          rcases h with h | h | h
          · exact Or.inl ⟨_, h⟩
          · exact Or.inr h
          · exact Or.inl ⟨_, h⟩
      | some f =>
          cases f <;>
            (simp only [start_redis_pool, if_true, List.mem_cons,
              List.not_mem_nil, or_false] at h
             rcases h with h | h
             · exact Or.inl ⟨_, h⟩
             · exact Or.inr h)

/-- The phase ranks occurring in a database-starter trace are all 0. -/
theorem ranks_start_database_pool (e : Bool) (c : Option CreateFailure)
    (a : Option String) :
    ∀ b ∈ (start_database_pool e c a).1.filterMap phaseRank, b = 0 := by
  intro b hb
  obtain ⟨x, hx, hfx⟩ := List.mem_filterMap.mp hb
  rcases mem_start_database_pool hx with ⟨s, rfl⟩ | rfl | rfl | rfl | ⟨s, rfl⟩ <;>
    simp [phaseRank] at hfx <;> omega

/-- The phase ranks occurring in a redis-starter trace are all 1. -/
theorem ranks_start_redis_pool (e : Bool) (c : Option CreateFailure) :
    ∀ b ∈ (start_redis_pool e c).1.filterMap phaseRank, b = 1 := by
  intro b hb
  obtain ⟨x, hx, hfx⟩ := List.mem_filterMap.mp hb
  rcases mem_start_redis_pool hx with ⟨s, rfl⟩ | rfl
  · simp [phaseRank] at hfx
  · simp [phaseRank] at hfx
    omega

/-- Teardown operations carry no startup phase. -/
theorem ranks_teardownEvents (d r : Bool) :
    (teardownEvents d r).filterMap phaseRank = [] := by
  cases d <;> cases r <;> rfl

/-- A list whose elements are all one value is sorted. -/
theorem pairwise_le_of_all_eq {l : List Nat} {k : Nat} (h : ∀ b ∈ l, b = k) :
    l.Pairwise (· ≤ ·) := by
  induction l with
  | nil => exact List.Pairwise.nil
  | cons a t ih =>
      refine List.Pairwise.cons ?_ (ih fun b hb => h b (List.mem_cons_of_mem a hb))
      intro b hb
      rw [h a (List.mem_cons_self a t), h b (List.mem_cons_of_mem a hb)]

/-- Assembling the phase-ordering invariant: a block of rank-0 events,
then a block of rank-1 events, then a sorted tail of ranks at least 1,
is sorted. -/
theorem pairwise_phase_blocks (ev1 ev2 rest : List Event)
    (h1 : ∀ b ∈ ev1.filterMap phaseRank, b = 0)
    (h2 : ∀ b ∈ ev2.filterMap phaseRank, b = 1)
    (h3 : (rest.filterMap phaseRank).Pairwise (· ≤ ·))
    (h4 : ∀ b ∈ rest.filterMap phaseRank, 1 ≤ b) :
    ((ev1 ++ ev2 ++ rest).filterMap phaseRank).Pairwise (· ≤ ·) := by
  rw [List.filterMap_append, List.filterMap_append]
  refine List.pairwise_append.mpr ⟨?_, h3, ?_⟩
  · refine List.pairwise_append.mpr ⟨pairwise_le_of_all_eq h1, pairwise_le_of_all_eq h2, ?_⟩
    intro x hx y hy
    rw [h1 x hx]
    exact Nat.zero_le y
  · intro x hx y hy
    rcases List.mem_append.mp hx with h | h
    · rw [h1 x h]
      exact Nat.zero_le y
    · rw [h2 x h]
      exact h4 y hy

/-- C4: in every execution of `run_bot`, every database-pool-start event
(including schema bootstrap) precedes every redis-pool-start event, which
precedes the extension-loading invocation, which precedes the invocation
of the client's blocking run: the sequence of phase ranks occurring in
the trace is sorted, so the phases never interleave or reorder. -/
theorem C4_startup_ordering (p : RunParams) :
    ((run_bot p).1.filterMap phaseRank).Pairwise (· ≤ ·) := by
  have hdb := ranks_start_database_pool p.dbEnabled p.dbCreate p.artifact
  have hre := ranks_start_redis_pool p.redisEnabled p.redisCreate
  rcases h1 : start_database_pool p.dbEnabled p.dbCreate p.artifact with ⟨ev1, e1⟩
  rw [h1] at hdb
  cases e1 with
  | some exc =>
      simp only [run_bot, h1]
      exact pairwise_le_of_all_eq hdb
  | none =>
      rcases h2 : start_redis_pool p.redisEnabled p.redisCreate with ⟨ev2, e2⟩
      rw [h2] at hre
      cases e2 with
      | some exc =>
          simp only [run_bot, h1, h2]
          have := pairwise_phase_blocks ev1 ev2 [] hdb hre
            (by simp) (by simp)
          simpa using this
      | none =>
          cases hrun : p.runEnd with
          | fatal exc =>
              simp only [run_bot, h1, h2, hrun]
              exact pairwise_phase_blocks ev1 ev2
                [Event.log "Loading extensions... ", Event.loadAllExtensions,
                  Event.log "Running bot", Event.botStart] hdb hre
                (by decide) (by decide)
          | normal =>
              simp only [run_bot, h1, h2, hrun]
              have h3 : (([Event.log "Loading extensions... ", Event.loadAllExtensions,
                  Event.log "Running bot", Event.botStart]
                    ++ teardownEvents p.dbEnabled p.redisEnabled).filterMap phaseRank)
                  = [2, 3] := by
                rw [List.filterMap_append, ranks_teardownEvents]
                rfl
              have := pairwise_phase_blocks ev1 ev2
                ([Event.log "Loading extensions... ", Event.loadAllExtensions,
                  Event.log "Running bot", Event.botStart]
                    ++ teardownEvents p.dbEnabled p.redisEnabled) hdb hre
                (by rw [h3]; decide) (by rw [h3]; decide)
              simpa [List.append_assoc] using this
          | keyboardInterrupt =>
              simp only [run_bot, h1, h2, hrun]
              have h3 : (([Event.log "Loading extensions... ", Event.loadAllExtensions,
                  Event.log "Running bot", Event.botStart]
                    ++ ([Event.log "Logging out bot", Event.botLogout]
                      ++ teardownEvents p.dbEnabled p.redisEnabled)).filterMap phaseRank)
                  = [2, 3] := by
                rw [List.filterMap_append, List.filterMap_append, ranks_teardownEvents]
                rfl
              have := pairwise_phase_blocks ev1 ev2
                ([Event.log "Loading extensions... ", Event.loadAllExtensions,
                  Event.log "Running bot", Event.botStart]
                    ++ ([Event.log "Logging out bot", Event.botLogout]
                      ++ teardownEvents p.dbEnabled p.redisEnabled)) hdb hre
                (by rw [h3]; decide) (by rw [h3]; decide)
              simpa [List.append_assoc] using this

/-- Counting distributes over trace concatenation. -/
theorem countEvent_append (x : Event) (l1 l2 : List Event) :
    countEvent x (l1 ++ l2) = countEvent x l1 + countEvent x l2 :=
  List.countP_append _ _ _

/-- A trace containing no occurrence of an event counts it zero times. -/
theorem countEvent_eq_zero {x : Event} {l : List Event} (h : ∀ y ∈ l, y ≠ x) :
    countEvent x l = 0 := by
  unfold countEvent
  rw [List.countP_eq_zero]
  intro y hy
  simpa using h y hy

/-- The database starter never performs events outside its own phase. -/
theorem countEvent_db_starter_zero (x : Event) (e : Bool) (c : Option CreateFailure)
    (a : Option String)
    (hlog : ∀ s, Event.log s ≠ x) (h1 : Event.dbCreatePool ≠ x)
    (h2 : Event.dbAcquireConnection ≠ x) (h3 : Event.dbReleaseConnection ≠ x)
    (h4 : ∀ s, Event.execStatement s ≠ x) :
    countEvent x (start_database_pool e c a).1 = 0 := by
  apply countEvent_eq_zero
  intro y hy
  rcases mem_start_database_pool hy with ⟨s, rfl⟩ | rfl | rfl | rfl | ⟨s, rfl⟩
  · exact hlog s
  · exact h1
  · exact h2
  · exact h3
  · exact h4 s

/-- The redis starter never performs events outside its own phase. -/
theorem countEvent_redis_starter_zero (x : Event) (e : Bool) (c : Option CreateFailure)
    (hlog : ∀ s, Event.log s ≠ x) (h1 : Event.redisCreatePool ≠ x) :
    countEvent x (start_redis_pool e c).1 = 0 := by
  apply countEvent_eq_zero
  intro y hy
  rcases mem_start_redis_pool hy with ⟨s, rfl⟩ | rfl
  · exact hlog s
  · exact h1

/-- An event absent from both starters, from the fixed middle section,
from the logout block and from the teardown block never occurs in a
`run_bot` trace, whichever path the execution takes. -/
theorem countEvent_run_bot_zero (p : RunParams) (x : Event)
    (h1 : countEvent x (start_database_pool p.dbEnabled p.dbCreate p.artifact).1 = 0)
    (h2 : countEvent x (start_redis_pool p.redisEnabled p.redisCreate).1 = 0)
    (h3 : countEvent x [Event.log "Loading extensions... ", Event.loadAllExtensions,
        Event.log "Running bot", Event.botStart] = 0)
    (h4 : countEvent x [Event.log "Logging out bot", Event.botLogout] = 0)
    (h5 : countEvent x (teardownEvents p.dbEnabled p.redisEnabled) = 0) :
    countEvent x (run_bot p).1 = 0 := by
  rcases hh1 : start_database_pool p.dbEnabled p.dbCreate p.artifact with ⟨ev1, e1⟩
  rw [hh1] at h1
  dsimp only at h1
  cases e1 with
  | some exc =>
      simp only [run_bot, hh1]
      exact h1
  | none =>
      rcases hh2 : start_redis_pool p.redisEnabled p.redisCreate with ⟨ev2, e2⟩
      rw [hh2] at h2
      dsimp only at h2
      cases e2 with
      | some exc =>
          simp only [run_bot, hh1, hh2, countEvent_append]
          omega
      | none =>
          cases hrun : p.runEnd with
          | fatal exc =>
              simp only [run_bot, hh1, hh2, hrun, countEvent_append]
              omega
          | normal =>
              simp only [run_bot, hh1, hh2, hrun, countEvent_append]
              omega
          | keyboardInterrupt =>
              simp only [run_bot, hh1, hh2, hrun, countEvent_append]
              omega

/-- C8: a disabled resource is skipped everywhere.  With `enabled` false
each starter only logs that the resource is disabled and returns without
invoking the collaborator's pool creation (no exception, no handle); and
in every `run_bot` execution the disabled resource's `create_pool` count
and pool-close count over the whole trace are both zero, so its close is
also skipped at teardown. -/
theorem C8_disabled_resource_skipped :
    (∀ c a, start_database_pool false c a =
        ([Event.log "Database connection has been disabled"], none))
    ∧ (∀ c, start_redis_pool false c =
        ([Event.log "Redis connection has been disabled"], none))
    ∧ (∀ p : RunParams, p.dbEnabled = false →
        countEvent Event.dbCreatePool (run_bot p).1 = 0
        ∧ countEvent Event.dbPoolClose (run_bot p).1 = 0)
    ∧ (∀ p : RunParams, p.redisEnabled = false →
        countEvent Event.redisCreatePool (run_bot p).1 = 0
        ∧ countEvent Event.redisPoolClose (run_bot p).1 = 0) := by
  refine ⟨fun c a => rfl, fun c => rfl, ?_, ?_⟩
  · intro p hdb
    constructor
    · refine countEvent_run_bot_zero p Event.dbCreatePool ?_ ?_ (by decide) (by decide) ?_
      · rw [hdb,
          show start_database_pool false p.dbCreate p.artifact =
            ([Event.log "Database connection has been disabled"], none) from rfl]
        decide
      · exact countEvent_redis_starter_zero _ _ _ (fun s => by simp) (by simp)
      · rw [hdb]
        cases p.redisEnabled <;> decide
    · refine countEvent_run_bot_zero p Event.dbPoolClose
        (countEvent_db_starter_zero _ _ _ _ (fun s => by simp) (by simp) (by simp) (by simp)
          (fun s => by simp))
        (countEvent_redis_starter_zero _ _ _ (fun s => by simp) (by simp))
        (by decide) (by decide) ?_
      rw [hdb]
      cases p.redisEnabled <;> decide
  · intro p hre
    constructor
    · refine countEvent_run_bot_zero p Event.redisCreatePool
        (countEvent_db_starter_zero _ _ _ _ (fun s => by simp) (by simp) (by simp) (by simp)
          (fun s => by simp)) ?_ (by decide) (by decide) ?_
      · rw [hre,
          show start_redis_pool false p.redisCreate =
            ([Event.log "Redis connection has been disabled"], none) from rfl]
        decide
      · rw [hre]
        cases p.dbEnabled <;> decide
    · refine countEvent_run_bot_zero p Event.redisPoolClose
        (countEvent_db_starter_zero _ _ _ _ (fun s => by simp) (by simp) (by simp) (by simp)
          (fun s => by simp))
        (countEvent_redis_starter_zero _ _ _ (fun s => by simp) (by simp))
        (by decide) (by decide) ?_
      rw [hre]
      cases p.dbEnabled <;> decide

/-- C8 witness: a run with both resources disabled creates and closes no
pool. -/
theorem C8_disabled_resource_skipped_witness :
    countEvent Event.dbCreatePool
      (run_bot ⟨false, false, none, none, none, RunEnd.normal⟩).1 = 0
    ∧ countEvent Event.dbPoolClose
      (run_bot ⟨false, false, none, none, none, RunEnd.normal⟩).1 = 0
    ∧ countEvent Event.redisCreatePool
      (run_bot ⟨false, false, none, none, none, RunEnd.normal⟩).1 = 0
    ∧ countEvent Event.redisPoolClose
      (run_bot ⟨false, false, none, none, none, RunEnd.normal⟩).1 = 0 :=
  ⟨(C8_disabled_resource_skipped.2.2.1 ⟨false, false, none, none, none, RunEnd.normal⟩ rfl).1,
   (C8_disabled_resource_skipped.2.2.1 ⟨false, false, none, none, none, RunEnd.normal⟩ rfl).2,
   (C8_disabled_resource_skipped.2.2.2 ⟨false, false, none, none, none, RunEnd.normal⟩ rfl).1,
   (C8_disabled_resource_skipped.2.2.2 ⟨false, false, none, none, none, RunEnd.normal⟩ rfl).2⟩

/-- C5: in every `run_bot` execution that reaches teardown (no exception
propagates) with both resources enabled, the database pool close happens
exactly once and before the redis pool close (which also happens exactly
once); and when the run ends by `KeyboardInterrupt`, the client's
graceful `logout` is invoked exactly once, before either pool close. -/
theorem C5_teardown_order_and_logout (p : RunParams)
    (hdb : p.dbEnabled = true) (hre : p.redisEnabled = true)
    (hok : (run_bot p).2 = none) :
    countEvent Event.dbPoolClose (run_bot p).1 = 1
    ∧ countEvent Event.redisPoolClose (run_bot p).1 = 1
    ∧ List.Sublist [Event.dbPoolClose, Event.redisPoolClose] (run_bot p).1
    ∧ (p.runEnd = RunEnd.keyboardInterrupt →
        countEvent Event.botLogout (run_bot p).1 = 1
        ∧ List.Sublist [Event.botLogout, Event.dbPoolClose] (run_bot p).1
        ∧ List.Sublist [Event.botLogout, Event.redisPoolClose] (run_bot p).1) := by
  have z1 : ∀ x, (∀ s, Event.log s ≠ x) → Event.dbCreatePool ≠ x →
      Event.dbAcquireConnection ≠ x → Event.dbReleaseConnection ≠ x →
      (∀ s, Event.execStatement s ≠ x) →
      countEvent x (start_database_pool p.dbEnabled p.dbCreate p.artifact).1 = 0 :=
    fun x hl h1 h2 h3 h4 => countEvent_db_starter_zero x _ _ _ hl h1 h2 h3 h4
  have z2 : ∀ x, (∀ s, Event.log s ≠ x) → Event.redisCreatePool ≠ x →
      countEvent x (start_redis_pool p.redisEnabled p.redisCreate).1 = 0 :=
    fun x hl h1 => countEvent_redis_starter_zero x _ _ hl h1
  rcases hh1 : start_database_pool p.dbEnabled p.dbCreate p.artifact with ⟨ev1, e1⟩
  have zdb1 := z1 Event.dbPoolClose (fun s => by simp) (by simp) (by simp) (by simp)
    (fun s => by simp)
  have zre1 := z1 Event.redisPoolClose (fun s => by simp) (by simp) (by simp) (by simp)
    (fun s => by simp)
  have zlo1 := z1 Event.botLogout (fun s => by simp) (by simp) (by simp) (by simp)
    (fun s => by simp)
  rw [hh1] at zdb1 zre1 zlo1
  dsimp only at zdb1 zre1 zlo1
  cases e1 with
  | some exc =>
      simp only [run_bot, hh1] at hok
      exact absurd hok (by simp)
  | none =>
      rcases hh2 : start_redis_pool p.redisEnabled p.redisCreate with ⟨ev2, e2⟩
      have zdb2 := z2 Event.dbPoolClose (fun s => by simp) (by simp)
      have zre2 := z2 Event.redisPoolClose (fun s => by simp) (by simp)
      have zlo2 := z2 Event.botLogout (fun s => by simp) (by simp)
      rw [hh2] at zdb2 zre2 zlo2
      dsimp only at zdb2 zre2 zlo2
      cases e2 with
      | some exc =>
          simp only [run_bot, hh1, hh2] at hok
          exact absurd hok (by simp)
      | none =>
          rw [hdb] at hh1
          rw [hre] at hh2
          cases hrun : p.runEnd with
          | fatal exc =>
              simp only [run_bot, hdb, hre, hh1, hh2, hrun] at hok
              exact absurd hok (by simp)
          | normal =>
              simp only [run_bot, hdb, hre, hh1, hh2, hrun]
              refine ⟨?_, ?_, ?_, ?_⟩
              · simp only [countEvent_append, zdb1, zdb2]
                decide
              · simp only [countEvent_append, zre1, zre2]
                decide
              · exact List.Sublist.trans
                  (show List.Sublist [Event.dbPoolClose, Event.redisPoolClose]
                    (teardownEvents true true) by decide)
                  (List.sublist_append_right _ _)
              · intro hcontra
                exact RunEnd.noConfusion hcontra
          | keyboardInterrupt =>
              simp only [run_bot, hdb, hre, hh1, hh2, hrun]
              refine ⟨?_, ?_, ?_, fun _ => ⟨?_, ?_, ?_⟩⟩
              · simp only [countEvent_append, zdb1, zdb2]
                decide
              · simp only [countEvent_append, zre1, zre2]
                decide
              · exact List.Sublist.trans
                  (show List.Sublist [Event.dbPoolClose, Event.redisPoolClose]
                    (teardownEvents true true) by decide)
                  (List.sublist_append_right _ _)
              · simp only [countEvent_append, zlo1, zlo2]
                decide
              · rw [List.append_assoc]
                exact List.Sublist.trans
                  (show List.Sublist [Event.botLogout, Event.dbPoolClose]
                    ([Event.log "Logging out bot", Event.botLogout]
                      ++ teardownEvents true true) by decide)
                  (List.sublist_append_right _ _)
              · rw [List.append_assoc]
                exact List.Sublist.trans
                  (show List.Sublist [Event.botLogout, Event.redisPoolClose]
                    ([Event.log "Logging out bot", Event.botLogout]
                      ++ teardownEvents true true) by decide)
                  (List.sublist_append_right _ _)

/-- C5 witness: an interrupted run with both resources enabled logs out
once and closes the database pool before the redis pool. -/
theorem C5_teardown_order_and_logout_witness :
    countEvent Event.dbPoolClose (run_bot ⟨true, true, none, none,
        some "CREATE TABLE a(x int); CREATE TABLE b(y int);", RunEnd.keyboardInterrupt⟩).1 = 1
    ∧ countEvent Event.botLogout (run_bot ⟨true, true, none, none,
        some "CREATE TABLE a(x int); CREATE TABLE b(y int);", RunEnd.keyboardInterrupt⟩).1 = 1
    ∧ List.Sublist [Event.botLogout, Event.dbPoolClose]
        (run_bot ⟨true, true, none, none,
          some "CREATE TABLE a(x int); CREATE TABLE b(y int);", RunEnd.keyboardInterrupt⟩).1 := by
  have h := C5_teardown_order_and_logout ⟨true, true, none, none,
    some "CREATE TABLE a(x int); CREATE TABLE b(y int);", RunEnd.keyboardInterrupt⟩
    rfl rfl (by decide)
  exact ⟨h.1, (h.2.2.2 rfl).1, (h.2.2.2 rfl).2.1⟩
